import Mathlib

/-!
Verification development for the `poly_abri` 5-minute Polymarket trading bot.

The definitions below are a shallow embedding, into Lean, of the Python code in
`src/` (files `src/strategy_5min.py`, `src/config.py`, `src/trading_client.py`
and `dto/order_dto.py`).  Prices and sizes are modelled as exact rationals
(the code works on Python floats, but every constant the claims exercise is an
exact small decimal); machine integers are modelled as `Int` with Python's
floor-division (`Int.fdiv`) and nonnegative remainder (`Int.emod`); fallible
Python code (an expression that raises) is modelled with `Except PyErr`.
-/

namespace PolyAbri

instance {ε α : Type} [DecidableEq ε] [DecidableEq α] : DecidableEq (Except ε α) := fun a b =>
  match a, b with
  | .ok x, .ok y =>
    if h : x = y then isTrue (by rw [h]) else isFalse (fun hc => h (Except.ok.inj hc))
  | .error x, .error y =>
    if h : x = y then isTrue (by rw [h]) else isFalse (fun hc => h (Except.error.inj hc))
  | .ok _, .error _ => isFalse (fun hc => Except.noConfusion hc)
  | .error _, .ok _ => isFalse (fun hc => Except.noConfusion hc)

/-- Python exceptions that the modelled code can raise. -/
inductive PyErr where
  | typeError
  | zeroDivisionError
  | attributeError
deriving DecidableEq, Repr

/-- Python's `round` to an integer (banker's rounding: ties go to the even
integer), on exact rationals. -/
def pyRound (q : ℚ) : ℤ :=
  let n : ℤ := ⌊q⌋
  let f : ℚ := q - (n : ℚ)
  if f < 1/2 then n
  else if 1/2 < f then n + 1
  else if n % 2 = 0 then n else n + 1

/-- Python's `round(x, 2)`: round to two decimal places. -/
def pyRound2 (q : ℚ) : ℚ :=
  ((pyRound (q * 100) : ℤ) : ℚ) / 100

/-- Result type of the remaining-time queries in `strategy_5min.py`
(`get_time_remaining`, `get_strategy_remaining`,
`get_strategy_remaining_to_start`): the Python functions return the strings
`"Unknown"`, `"CLOSED"` or `f"{minutes}m {seconds}s"`. -/
inductive Remaining where
  | unknown
  | closed
  | time (minutes seconds : ℤ)
deriving DecidableEq, Repr

/-- `SimpleArbitrageBot.get_time_remaining` (strategy_5min.py lines 141-154).
A falsy (`None`/`0`) `market_end_timestamp` is modelled as `0`. -/
def get_time_remaining (market_end_timestamp now : ℤ) : Remaining :=
  if market_end_timestamp = 0 then .unknown
  else
    let remaining := market_end_timestamp - now
    if remaining ≤ 0 then .closed
    else .time (remaining.fdiv 60) (remaining.emod 60)

/-- `SimpleArbitrageBot.get_strategy_remaining_to_start` (strategy_5min.py
lines 171-184).  Note the comparison is `remaining >= 0`: the function answers
`"CLOSED"` while the countdown to the strategy start has NOT yet elapsed. -/
def get_strategy_remaining_to_start (strategy_start_timestamp now : ℤ) : Remaining :=
  if strategy_start_timestamp = 0 then .unknown
  else
    let remaining := strategy_start_timestamp - now
    if remaining ≥ 0 then .closed
    else .time (remaining.fdiv 60) (remaining.emod 60)

/-- The gate in `SimpleArbitrageBot.monitor` (strategy_5min.py lines 705-709):
the loop body reaches the scanning call `run_once` only when
`get_strategy_remaining_to_start()` is not `"CLOSED"` (when it is `"CLOSED"`
the iteration logs and `continue`s). -/
def monitorEntersScanning (strategy_start_timestamp now : ℤ) : Bool :=
  match get_strategy_remaining_to_start strategy_start_timestamp now with
  | .closed => false
  | _ => true

/-- `OrderDto` from `dto/order_dto.py`: token id, price, size. -/
structure OrderDto where
  token_id : String
  price : ℚ
  size : ℚ
deriving DecidableEq, Repr

/-- Construction of an `OrderDto`: `__post_init__` immediately replaces the
price with `round(float(self.price), 2)` (dto/order_dto.py lines 9-10). -/
def mkOrderDto (token_id : String) (price size : ℚ) : OrderDto :=
  { token_id := token_id, price := pyRound2 price, size := size }

/-- The six-tuple returned by `SimpleArbitrageBot.get_current_prices` on
success (strategy_5min.py line 224): last-trade prices, ask sizes and best
asks for the UP and DOWN tokens.  The failure case (all `None` after three
retries, line 232) is modelled as `Option Quotes = none` at every use site. -/
structure Quotes where
  price_up : ℚ
  price_down : ℚ
  size_up : ℚ
  size_down : ℚ
  best_up : ℚ
  best_down : ℚ
deriving DecidableEq, Repr

/-- The arbitrage-opportunity dictionary built by `check_arbitrage`
(strategy_5min.py lines 311-324); the timestamp field is omitted. -/
structure Opportunity where
  price_up : ℚ
  price_down : ℚ
  total_cost : ℚ
  profit_per_share : ℚ
  order_size : ℚ
  total_investment : ℚ
  expected_payout : ℚ
  expected_profit : ℚ
  size_up : ℚ
  size_down : ℚ
deriving DecidableEq, Repr

/-- The `Settings` dataclass from `src/config.py` (lines 10-37), with each
field's `.env` default.  Floats become `ℚ`, ints become `ℤ`. -/
structure Settings where
  api_key : String := ""
  api_secret : String := ""
  api_passphrase : String := ""
  private_key : String := ""
  signature_type : ℤ := 1
  funder : String := ""
  market_slug : String := ""
  market_id : String := ""
  yes_token_id : String := ""
  no_token_id : String := ""
  ws_url : String := "wss://ws-subscriptions-clob.polymarket.com"
  target_pair_cost : ℚ := 99/100
  balance_slack : ℚ := 15/100
  order_size : ℚ := 50
  yes_buy_threshold : ℚ := 45/100
  no_buy_threshold : ℚ := 45/100
  verbose : Bool := false
  dry_run : Bool := false
  cooldown_seconds : ℚ := 10
  sim_balance : ℚ := 0
  max_trades_per_market : ℤ := 0
  min_time_remaining_minutes : ℤ := 0
deriving DecidableEq, Repr

/-- The `Settings` value produced by `load_settings()` with an empty
environment: all defaults. -/
def defaultSettings : Settings := {}

/-- The names of the fields of the `Settings` dataclass, exactly as declared
in `src/config.py` lines 10-37.  An attribute access
`settings.<name>` on a freshly loaded `Settings` raises `AttributeError`
exactly when `<name>` is not in this list. -/
def settingsFields : List String :=
  ["api_key", "api_secret", "api_passphrase", "private_key",
   "signature_type", "funder", "market_slug", "market_id",
   "yes_token_id", "no_token_id", "ws_url", "target_pair_cost",
   "balance_slack", "order_size", "yes_buy_threshold", "no_buy_threshold",
   "verbose", "dry_run", "cooldown_seconds", "sim_balance",
   "max_trades_per_market", "min_time_remaining_minutes"]

/-- Attribute lookup on a `load_settings()` result: `some ()` when the
attribute exists on the dataclass, `none` when the access raises
`AttributeError`. -/
def getattr_settings (name : String) : Option Unit :=
  if settingsFields.contains name then some () else none

/-- The top-level names defined by `src/trading_client.py` (module body:
`logger`, the `_cached_client` global and the five functions). -/
def trading_client_defs : List String :=
  ["logger", "_cached_client", "get_client", "get_balance",
   "place_order", "place_orders_fast", "get_positions"]

/-- The names `src/strategy_5min.py` line 23 imports from
`src.trading_client`. -/
def strategy_trading_imports : List String :=
  ["get_client", "get_balance", "get_positions",
   "place_orders_fast", "execute_market_buy"]

/-- A Python `from module import a, b, ...` succeeds exactly when every
imported name is defined by the module; `strategy_5min.py`'s import of
`src.trading_client` succeeds iff this is `true`. -/
def strategy_import_ok : Bool :=
  strategy_trading_imports.all (fun n => trading_client_defs.contains n)

/-- Line 121 of `strategy_5min.py`:
`self.strategy_start_timestamp = market_start + self.settings.strategy_start_timestamp`.
The attribute read on `settings` is performed before the addition; when the
attribute is absent the statement raises `AttributeError`.  The same line runs
again on market rotation, because `monitor` (line 675) re-invokes
`self.__init__(self.settings, symbol)`. -/
def botInit_line121 (market_start : ℤ) : Except PyErr ℤ :=
  match getattr_settings "strategy_start_timestamp" with
  | none => .error .attributeError
  | some _ => .ok market_start

/-- `SimpleArbitrageBot.check_arbitrage` (strategy_5min.py lines 262-326),
as a pure function of the fetched quotes and the settings.  `none` models the
Python `return None`. -/
def check_arbitrage (s : Settings) (quotes : Option Quotes) : Option Opportunity :=
  match quotes with
  | none => none
  | some q =>
    if q.price_up ≥ 75/100 ∨ q.price_down ≥ 75/100 then none
    else if (|q.price_up - q.best_up| > 3/100 ∧ |q.price_down - q.best_down| > 3/100) ∨
        |q.price_up - q.best_up| + |q.price_down - q.best_down| > 5/100 then none
    else if q.price_up + q.price_down < s.target_pair_cost then
      if q.size_up - 5 < s.order_size ∨ q.size_down - 5 < s.order_size then none
      else
        some { price_up := q.price_up, price_down := q.price_down,
               total_cost := q.price_up + q.price_down,
               profit_per_share := 1 - (q.price_up + q.price_down),
               order_size := s.order_size,
               total_investment := (q.price_up + q.price_down) * s.order_size,
               expected_payout := 1 * s.order_size,
               expected_profit := 1 * s.order_size - (q.price_up + q.price_down) * s.order_size,
               size_up := q.size_up, size_down := q.size_down }
    else none

/-- The candidate scan `for s in range(min_s, min_s + 200)` in `run_once`
(strategy_5min.py lines 598-602): starting at `start` and trying `fuel`
consecutive integers, return the first `s` with `(s * price_cents) % 100 == 0`
(Python `%` on a positive modulus agrees with `Int.emod`). -/
def searchSize (price_cents : ℤ) : ℕ → ℤ → Option ℤ
  | 0, _ => none
  | fuel + 1, start =>
    if start * price_cents % 100 = 0 then some start
    else searchSize price_cents fuel (start + 1)

/-- The order-size adjustment in `run_once` (strategy_5min.py lines 594-606):
when the raw cost `price * size` is below $1, convert the price to integer
cents, scan 200 candidates for a size making the cost an exact cent, and fall
back to `ceil(1/price)` shares.  `none` models the `ZeroDivisionError` raised
by `math.ceil(10000 / price_cents)` when `price_cents == 0`.  A found
candidate `s` is a size in hundredths of a share, stored as `s / 100`. -/
def adjustOrderSize (price size : ℚ) : Option ℚ :=
  if price * size < 1 then
    if pyRound (price * 100) = 0 then none
    else
      match searchSize (pyRound (price * 100)) 200
          ⌈(10000 : ℚ) / ((pyRound (price * 100) : ℤ) : ℚ)⌉ with
      | some s => some ((s : ℚ) / 100)
      | none => some ((⌈(1 : ℚ) / price⌉ : ℤ) : ℚ)
  else some size

/-- `SimpleArbitrageBot.run_once` (strategy_5min.py lines 548-630) as a pure
function.  The result is the pair (returned boolean, order carried to
submission/dry-run recording); `is_performed` is set exactly when the order
component is `some`.  The two early timestamp gates reuse the query
functions; a `none` quote tuple makes the f-string
`f'Up Price: \x7bprice_up:.2f\x7d, ...'` on line 562 raise `TypeError`
(formatting `None`); a zero cent price makes the sizer raise
`ZeroDivisionError`. -/
def run_once (market_end strategy_start now : ℤ) (s : Settings)
    (yes_token no_token : String) (quotes : Option Quotes) :
    Except PyErr (Bool × Option OrderDto) :=
  if get_time_remaining market_end now = .closed then .ok (false, none)
  else if get_strategy_remaining_to_start strategy_start now = .closed then .ok (false, none)
  else
    match quotes with
    | none => .error .typeError
    | some q =>
      if (q.price_up ≥ s.yes_buy_threshold ∧ q.price_up ≤ 95/100) ∨
         (q.price_down ≥ s.no_buy_threshold ∧ q.price_down ≤ 95/100) then
        match (if q.price_up ≥ s.yes_buy_threshold ∧ q.price_up ≤ 95/100 then
                 some (mkOrderDto yes_token q.best_up s.order_size)
               else if q.price_down ≥ s.no_buy_threshold ∧ q.price_down ≤ 95/100 then
                 some (mkOrderDto no_token q.best_down s.order_size)
               else none : Option OrderDto) with
        | none => .ok (false, none)
        | some o =>
          match adjustOrderSize o.price o.size with
          | none => .error .zeroDivisionError
          | some new_size => .ok (true, some { o with size := new_size })
      else .ok (false, none)

/-- The two guards at the head of `SimpleArbitrageBot.execute_arbitrage`
(strategy_5min.py lines 349-374): `true` iff execution proceeds past the
minimum-remaining-time guard and the per-market trade-count cap.  These guards
exist only in `execute_arbitrage`; the polling loop `monitor` never calls it
(it calls `run_once`, which contains neither guard). -/
def executeArbitrageProceeds (s : Settings)
    (market_end now current_market_trades : ℤ) : Bool :=
  if s.min_time_remaining_minutes > 0 ∧ market_end ≠ 0 ∧
      ((market_end - now : ℤ) : ℚ) / 60 < (s.min_time_remaining_minutes : ℚ) then
    false
  else if s.max_trades_per_market > 0 ∧
      current_market_trades ≥ s.max_trades_per_market then
    false
  else true

/-- The stop-loss branch of `SimpleArbitrageBot.monitor`
(strategy_5min.py lines 691-703), entered while `is_performed` holds.
`direction_up` is whether `self.order["direction"] == "UP"`; `entry` is
`self.order["entry_price"]`; `stoploss_attr` is the result of the attribute
read `self.settings.stoploss` (`none` = the attribute is absent and the
comparison raises `AttributeError`).  The result is
(`stoploss_price` recorded on the order, new `is_finished`). -/
def monitorStoplossStep (direction_up : Bool) (entry : ℚ)
    (quotes : Option Quotes) (stoploss_attr : Option ℚ) :
    Except PyErr (Option ℚ × Bool) :=
  match quotes with
  | none => .ok (none, false)
  | some q =>
    let stoploss_price := if direction_up then q.price_up else q.price_down
    match stoploss_attr with
    | none => .error .attributeError
    | some margin =>
      if entry - stoploss_price ≥ margin then .ok (some stoploss_price, true)
      else .ok (none, false)

/-- A `Settings` value with a per-market trade cap of 1 and a 3-minute
minimum-remaining-time requirement (`MAX_TRADES_PER_MARKET=1`,
`MIN_TIME_REMAINING_MINUTES=3` in the environment). -/
def c6Settings : Settings :=
  { defaultSettings with max_trades_per_market := 1, min_time_remaining_minutes := 3 }

/-! Helper lemmas. -/

/-- Rounding an integer is the identity. -/
theorem pyRound_intCast (n : ℤ) : pyRound (n : ℚ) = n := by
  simp [pyRound]

/-- Rounding a whole number of cents to two decimals is the identity. -/
theorem pyRound2_cent (c : ℤ) : pyRound2 ((c : ℚ) / 100) = (c : ℚ) / 100 := by
  have h : ((c : ℚ) / 100) * 100 = (c : ℚ) := by field_simp
  rw [pyRound2, h, pyRound_intCast]

/-- Multiplying a two-decimal rounding by 100 lands on an integer. -/
theorem hundred_mul_pyRound2 (x : ℚ) :
    100 * pyRound2 x = ((pyRound (x * 100) : ℤ) : ℚ) := by
  rw [pyRound2, mul_comm, div_mul_cancel₀]
  norm_num

/-- Any size the candidate scan returns lies in the scanned window and makes
the cost an exact cent. -/
theorem searchSize_sound (c : ℤ) :
    ∀ (fuel : ℕ) (start s : ℤ), searchSize c fuel start = some s →
      start ≤ s ∧ s < start + fuel ∧ s * c % 100 = 0 := by
  intro fuel
  induction fuel with
  | zero => intro start s h; simp [searchSize] at h
  | succ n ih =>
    intro start s h
    rw [searchSize] at h
    split at h
    · next hq =>
      cases h
      exact ⟨le_refl _, by omega, hq⟩
    · obtain ⟨h1, h2, h3⟩ := ih (start + 1) s h
      exact ⟨by omega, by omega, h3⟩

/-- If some candidate in the scanned window makes the cost an exact cent, the
scan succeeds. -/
theorem searchSize_complete (c : ℤ) :
    ∀ (fuel : ℕ) (start s0 : ℤ), start ≤ s0 → s0 < start + fuel →
      s0 * c % 100 = 0 → ∃ s, searchSize c fuel start = some s := by
  intro fuel
  induction fuel with
  | zero => intro start s0 h1 h2 _; omega
  | succ n ih =>
    intro start s0 h1 h2 h3
    rw [searchSize]
    split
    · exact ⟨start, rfl⟩
    · next hq =>
      have hs0 : s0 ≠ start := fun h => hq (h ▸ h3)
      exact ih (start + 1) s0 (by omega) (by push_cast at h2 ⊢; omega) h3

/-- Every window of 100 consecutive integers holds a multiple of 100. -/
theorem exists_hundred_multiple (start : ℤ) :
    ∃ s0, start ≤ s0 ∧ s0 < start + 100 ∧ s0 % 100 = 0 := by
  exact ⟨start + (-start) % 100, by omega, by omega, by omega⟩

/-- A multiple of 100 makes `s0 * c` a multiple of 100. -/
theorem mul_emod_hundred {s0 : ℤ} (c : ℤ) (h : s0 % 100 = 0) :
    s0 * c % 100 = 0 := by
  obtain ⟨k, hk⟩ := Int.dvd_of_emod_eq_zero h
  subst hk
  rw [mul_assoc]
  exact Int.mul_emod_right 100 (k * c)

/-! Claim theorems. -/

/-- C1 (amended): with `strategy_start_timestamp` set (nonzero),
`get_strategy_remaining_to_start` returns the sentinel `CLOSED` if and only
if `now ≤ strategy_start` — it signals that the entry window has NOT yet
opened — and the monitor loop reaches the scanning call `run_once` exactly
when the result is not `CLOSED`, i.e. when `strategy_start < now`. -/
theorem C1_remaining_to_start_closed_iff (strategy_start now : ℤ)
    (h : strategy_start ≠ 0) :
    (get_strategy_remaining_to_start strategy_start now = .closed ↔
      now ≤ strategy_start) ∧
    (monitorEntersScanning strategy_start now = true ↔ strategy_start < now) := by
  unfold monitorEntersScanning get_strategy_remaining_to_start
  rw [if_neg h]
  by_cases h2 : strategy_start - now ≥ 0
  · rw [if_pos h2]
    constructor
    · simp only [true_iff]
      omega
    · simp only [Bool.false_eq_true, false_iff]
      omega
  · rw [if_neg h2]
    constructor
    · simp only [reduceCtorEq, false_iff]
      omega
    · simp only [true_iff]
      omega

/-- C1 witness: at `strategy_start = 100`, `now = 50` the query answers
`CLOSED` (the window has not opened) and the monitor does not scan. -/
theorem C1_witness :
    (get_strategy_remaining_to_start 100 50 = .closed ↔ (50 : ℤ) ≤ 100) ∧
    (monitorEntersScanning 100 50 = true ↔ (100 : ℤ) < 50) :=
  C1_remaining_to_start_closed_iff 100 50 (by decide)

/-- C1 counterexample: at `strategy_start = 100` and `now = 101` we have
`now ≥ strategy_start`, yet the query does not answer `CLOSED` (it returns
the countdown string), refuting the claimed equivalence. -/
theorem C1_counterexample :
    ¬ (get_strategy_remaining_to_start 100 101 = .closed ↔ (100 : ℤ) ≤ 101) := by
  decide

/-- C2: the stop-loss comparison in `monitor` reads `self.settings.stoploss`,
but the `Settings` dataclass declares no `stoploss` field, so with an open UP
position at entry 0.46 and the price at 0.35 the check raises
`AttributeError` instead of stopping the session; had a margin of 0.10 been
readable, the comparison `0.46 - 0.35 ≥ 0.10` would have fired, recording
0.35 and finishing the session, as the claim describes. -/
theorem C2_stoploss_reads_missing_attribute :
    getattr_settings "stoploss" = none ∧
    monitorStoplossStep true (46/100)
      (some ⟨35/100, 65/100, 100, 100, 35/100, 65/100⟩) none
      = .error .attributeError ∧
    monitorStoplossStep true (46/100)
      (some ⟨35/100, 65/100, 100, 100, 35/100, 65/100⟩) (some (1/10))
      = .ok (some (35/100), true) := by
  refine ⟨by decide, by simp [monitorStoplossStep], ?_⟩
  norm_num [monitorStoplossStep]

/-- C3 (amended): for every whole-cent price `c/100` in `(0, 1)`
(`1 ≤ c ≤ 99`) whose raw cost `price * size` is below the $1 exchange
minimum, the order-size adjustment in `run_once` returns a size `s` with
`s * price ≥ 1` and `s * price * 100` an exact integer (the cost lands on an
exact cent). -/
theorem C3_order_sizer_exact_cent (c : ℤ) (size : ℚ)
    (hc : 1 ≤ c) (hc99 : c ≤ 99) (hcost : (c : ℚ) / 100 * size < 1) :
    ∃ s : ℚ, adjustOrderSize ((c : ℚ) / 100) size = some s ∧
      1 ≤ s * ((c : ℚ) / 100) ∧
      ∃ n : ℤ, s * ((c : ℚ) / 100) * 100 = (n : ℚ) := by
  have hcent : pyRound ((c : ℚ) / 100 * 100) = c := by
    have h : ((c : ℚ) / 100) * 100 = (c : ℚ) := by field_simp
    rw [h, pyRound_intCast]
  have hc0 : ¬ (c = 0) := by omega
  obtain ⟨s0, h01, h02, h03⟩ := exists_hundred_multiple ⌈(10000 : ℚ) / (c : ℚ)⌉
  obtain ⟨s, hs⟩ := searchSize_complete c 200 _ s0 h01
    (by push_cast; omega) (mul_emod_hundred c h03)
  obtain ⟨hs1, _, hs3⟩ := searchSize_sound c 200 _ s hs
  refine ⟨(s : ℚ) / 100, ?_, ?_, ?_⟩
  · simp only [adjustOrderSize, if_pos hcost, hcent, if_neg hc0, hs]
  · have hcq : (0 : ℚ) < (c : ℚ) := by exact_mod_cast (by omega : (0 : ℤ) < c)
    have hceil : (10000 : ℚ) / (c : ℚ) ≤ (s : ℚ) :=
      le_trans (Int.le_ceil _) (by exact_mod_cast hs1)
    have h10 : (10000 : ℚ) ≤ (s : ℚ) * (c : ℚ) := (div_le_iff₀ hcq).mp hceil
    rw [div_mul_div_comm, le_div_iff₀ (by norm_num : (0 : ℚ) < 100 * 100)]
    linarith
  · obtain ⟨k, hk⟩ := Int.dvd_of_emod_eq_zero hs3
    refine ⟨k, ?_⟩
    have hkq : (s : ℚ) * (c : ℚ) = 100 * (k : ℚ) := by exact_mod_cast hk
    field_simp
    linarith

/-- C3 witness: price one cent, configured order size 50 (raw cost $0.50):
the adjustment succeeds with a cost of at least $1 on an exact cent. -/
theorem C3_witness :
    ∃ s : ℚ, adjustOrderSize (((1 : ℤ) : ℚ) / 100) 50 = some s ∧
      1 ≤ s * (((1 : ℤ) : ℚ) / 100) ∧
      ∃ n : ℤ, s * (((1 : ℤ) : ℚ) / 100) * 100 = (n : ℚ) :=
  C3_order_sizer_exact_cent 1 50 (by norm_num) (by norm_num) (by norm_num)

/-- C3 counterexample: the price `0.003` lies in `(0, 1)` and its raw cost
`0.003 * 50 = 0.15` is below $1, but `OrderDto` rounds it to `0.00` and the
adjustment then returns no size at all (it raises `ZeroDivisionError`),
refuting the claim over all of `(0, 1)`. -/
theorem C3_counterexample :
    pyRound2 (3/1000) = 0 ∧ adjustOrderSize (pyRound2 (3/1000)) 50 = none := by
  have h : pyRound2 (3/1000) = 0 := by norm_num [pyRound2, pyRound]
  refine ⟨h, ?_⟩
  rw [h]
  norm_num [adjustOrderSize, pyRound]

/-- C4: at best ask `0.003` (a valid UP signal at last-trade `0.50`),
`run_once` does not reach the `ceil(1/0.003) = 334` fallback: the `OrderDto`
price is rounded to `0.00`, `price_cents` is `0`, and
`math.ceil(10000 / price_cents)` raises `ZeroDivisionError`. -/
theorem C4_sizer_crash_on_subcent_price :
    run_once 200 (-10) 0 defaultSettings "UP" "DOWN"
      (some ⟨1/2, 1/10, 100, 100, 3/1000, 1/10⟩) = .error .zeroDivisionError := by
  norm_num [run_once, get_time_remaining, get_strategy_remaining_to_start,
    defaultSettings, mkOrderDto, adjustOrderSize, pyRound2, pyRound]
  simp

/-- C5 (amended): for every quote snapshot with both legs' last-trade price
strictly below 0.75, last-trade/best-ask divergence within the code's
tolerance, combined cost below a `target_pair_cost` that is at most 1, and
each leg's ask size minus the safety margin of 5 at least the configured
order size, `check_arbitrage` returns a non-null opportunity whose
`profit_per_share` equals `1 - total_cost` and is strictly positive. -/
theorem C5_arbitrage_opportunity (s : Settings) (q : Quotes)
    (hup : q.price_up < 75/100) (hdown : q.price_down < 75/100)
    (hdiv : ¬ ((|q.price_up - q.best_up| > 3/100 ∧ |q.price_down - q.best_down| > 3/100) ∨
        |q.price_up - q.best_up| + |q.price_down - q.best_down| > 5/100))
    (htarget : s.target_pair_cost ≤ 1)
    (hcost : q.price_up + q.price_down < s.target_pair_cost)
    (hliq_up : s.order_size ≤ q.size_up - 5)
    (hliq_down : s.order_size ≤ q.size_down - 5) :
    ∃ o : Opportunity, check_arbitrage s (some q) = some o ∧
      o.profit_per_share = 1 - (q.price_up + q.price_down) ∧
      0 < o.profit_per_share := by
  have h1 : ¬ (q.price_up ≥ 75/100 ∨ q.price_down ≥ 75/100) := by
    rintro (h | h) <;> linarith
  have h3 : ¬ (q.size_up - 5 < s.order_size ∨ q.size_down - 5 < s.order_size) := by
    rintro (h | h) <;> linarith
  simp only [check_arbitrage, if_neg h1, if_neg hdiv, if_pos hcost, if_neg h3]
  exact ⟨_, rfl, rfl, show (0 : ℚ) < 1 - (q.price_up + q.price_down) by linarith⟩

/-- C5 witness: the spec's end-to-end scenario `up = 0.40`, `down = 0.55`,
both ask sizes 100, default settings: an opportunity with
`profit_per_share = 0.05 > 0`. -/
theorem C5_witness :
    ∃ o : Opportunity,
      check_arbitrage defaultSettings
        (some ⟨40/100, 55/100, 100, 100, 40/100, 55/100⟩) = some o ∧
      o.profit_per_share = 1 - ((40 : ℚ)/100 + 55/100) ∧
      0 < o.profit_per_share :=
  C5_arbitrage_opportunity defaultSettings ⟨40/100, 55/100, 100, 100, 40/100, 55/100⟩
    (by norm_num) (by norm_num) (by norm_num) (by norm_num [defaultSettings])
    (by norm_num [defaultSettings]) (by norm_num [defaultSettings])
    (by norm_num [defaultSettings])

/-- C5 counterexample: at `up = 0.75` exactly (allowed by the claim's
"price at most 0.75"), `down = 0.10`, zero divergence, total cost 0.85 below
the default target 0.99, and ample ask size 100 on both legs,
`check_arbitrage` nevertheless returns `None`: the code rejects
`price >= 0.75`, not only `price > 0.75`. -/
theorem C5_counterexample :
    (75/100 : ℚ) ≤ 75/100 ∧ (10/100 : ℚ) ≤ 75/100 ∧
    (75/100 : ℚ) + 10/100 < defaultSettings.target_pair_cost ∧
    defaultSettings.order_size ≤ (100 : ℚ) - 5 ∧
    check_arbitrage defaultSettings
      (some ⟨75/100, 10/100, 100, 100, 75/100, 10/100⟩) = none := by
  norm_num [check_arbitrage, defaultSettings]

/-- C6 (amended): the per-market trade cap and the minimum-remaining-time
guard are enforced only inside `execute_arbitrage` (which the polling loop
never calls): when the cap is configured and reached, or when the minimum
time is configured and fewer minutes remain, `execute_arbitrage` returns
without executing.  The directional scanning path `run_once` contains
neither guard (see the counterexample). -/
theorem C6_guards_only_in_execute_arbitrage (s : Settings)
    (market_end now trades : ℤ) (hme : market_end ≠ 0)
    (h : (0 < s.max_trades_per_market ∧ s.max_trades_per_market ≤ trades) ∨
         (0 < s.min_time_remaining_minutes ∧
          ((market_end - now : ℤ) : ℚ) / 60 < (s.min_time_remaining_minutes : ℚ))) :
    executeArbitrageProceeds s market_end now trades = false := by
  unfold executeArbitrageProceeds
  rcases h with ⟨h1, h2⟩ | ⟨h1, h2⟩
  · by_cases ht : s.min_time_remaining_minutes > 0 ∧ market_end ≠ 0 ∧
        ((market_end - now : ℤ) : ℚ) / 60 < (s.min_time_remaining_minutes : ℚ)
    · rw [if_pos ht]
    · rw [if_neg ht, if_pos ⟨h1, h2⟩]
  · rw [if_pos ⟨h1, hme, h2⟩]

/-- C6 witness: with a cap of 1 and one trade already made in this market,
`execute_arbitrage` refuses to proceed. -/
theorem C6_witness : executeArbitrageProceeds c6Settings 60 0 1 = false :=
  C6_guards_only_in_execute_arbitrage c6Settings 60 0 1 (by decide)
    (Or.inl ⟨by norm_num [c6Settings, defaultSettings],
             by norm_num [c6Settings, defaultSettings]⟩)

/-- C6 counterexample: with `MIN_TIME_REMAINING_MINUTES = 3` and only one
minute left before market close (remaining 60 s), and with
`MAX_TRADES_PER_MARKET = 1` already reached (so `execute_arbitrage` would
refuse), the scanning path `run_once` still accepts the valid UP signal at
0.46 and carries an order to submission — neither guard is consulted. -/
theorem C6_counterexample :
    ((60 : ℤ) - 0 : ℚ) / 60 < (c6Settings.min_time_remaining_minutes : ℚ) ∧
    c6Settings.max_trades_per_market ≤ 1 ∧
    executeArbitrageProceeds c6Settings 60 0 1 = false ∧
    run_once 60 (-10) 0 c6Settings "UP" "DOWN"
      (some ⟨46/100, 1/10, 100, 100, 46/100, 1/10⟩)
      = .ok (true, some ⟨"UP", 46/100, 50⟩) := by
  refine ⟨by norm_num [c6Settings, defaultSettings],
          by norm_num [c6Settings, defaultSettings], ?_, ?_⟩
  · norm_num [executeArbitrageProceeds, c6Settings, defaultSettings]
  · norm_num [run_once, get_time_remaining, get_strategy_remaining_to_start,
      c6Settings, defaultSettings, mkOrderDto, adjustOrderSize, pyRound2, pyRound]
    simp

/-- C7: when the quote source fails (all-`None` tuple after the three
retries), `check_arbitrage` indeed returns `None` without raising, but
`run_once` does not complete returning `False`: the f-string
`f'Up Price: \x7bprice_up:.2f\x7d, ...'` formats `None` and raises
`TypeError`, so the poll crashes instead of being treated as transient. -/
theorem C7_quote_failure_crashes_run_once :
    check_arbitrage defaultSettings none = none ∧
    run_once 200 (-10) 0 defaultSettings "UP" "DOWN" none = .error .typeError := by
  exact ⟨rfl, by decide⟩

/-- C8: `strategy_5min.py` line 23 imports `execute_market_buy` from
`src.trading_client`, but that module defines no such name, so the import —
and with it the whole strategy module — fails before any operation can
run. -/
theorem C8_import_of_undefined_name :
    strategy_trading_imports.contains "execute_market_buy" = true ∧
    trading_client_defs.contains "execute_market_buy" = false ∧
    strategy_import_ok = false := by decide

/-- C9: `Settings` (as produced by `load_settings`) has no
`strategy_start_timestamp` field, so line 121 of `SimpleArbitrageBot.__init__`
— executed both at start-up and at the in-place reconstruction on market
rotation — raises `AttributeError` before any polling begins. -/
theorem C9_settings_lacks_strategy_start_timestamp :
    getattr_settings "strategy_start_timestamp" = none ∧
    botInit_line121 1759276800 = .error .attributeError := by decide

/-- C10: every `OrderDto` quantizes its price on construction to
`round(price, 2)`, and every order that `run_once` carries to
submission/recording has as its price the two-decimal rounding of the quoted
best ask of the chosen side — in particular `100 * price` is an exact
integer, so the order price is a whole cent rather than the raw quote. -/
theorem C10_order_price_whole_cent (t : String) (p sz : ℚ)
    (market_end strategy_start now : ℤ) (s : Settings) (yes no : String)
    (q : Quotes) (r : Bool) (o : OrderDto)
    (h : run_once market_end strategy_start now s yes no (some q) = .ok (r, some o)) :
    (mkOrderDto t p sz).price = pyRound2 p ∧
    (o.price = pyRound2 q.best_up ∨ o.price = pyRound2 q.best_down) ∧
    ∃ n : ℤ, 100 * o.price = (n : ℚ) := by
  have key : o.price = pyRound2 q.best_up ∨ o.price = pyRound2 q.best_down := by
    simp only [run_once] at h
    by_cases hc1 : get_time_remaining market_end now = .closed
    · simp only [if_pos hc1] at h
      simp at h
    simp only [if_neg hc1] at h
    by_cases hc2 : get_strategy_remaining_to_start strategy_start now = .closed
    · simp only [if_pos hc2] at h
      simp at h
    simp only [if_neg hc2] at h
    by_cases hc3 : (q.price_up ≥ s.yes_buy_threshold ∧ q.price_up ≤ 95/100) ∨
        (q.price_down ≥ s.no_buy_threshold ∧ q.price_down ≤ 95/100)
    case neg =>
      simp only [if_neg hc3] at h
      simp at h
    simp only [if_pos hc3] at h
    by_cases hd1 : q.price_up ≥ s.yes_buy_threshold ∧ q.price_up ≤ 95/100
    · simp only [if_pos hd1] at h
      cases hadj : adjustOrderSize (mkOrderDto yes q.best_up s.order_size).price
          (mkOrderDto yes q.best_up s.order_size).size with
      | none =>
        simp only [hadj] at h
        simp at h
      | some ns =>
        simp only [hadj, Except.ok.injEq, Prod.mk.injEq, Option.some.injEq] at h
        refine Or.inl ?_
        rw [← h.2]
        rfl
    · simp only [if_neg hd1] at h
      by_cases hd2 : q.price_down ≥ s.no_buy_threshold ∧ q.price_down ≤ 95/100
      · simp only [if_pos hd2] at h
        cases hadj : adjustOrderSize (mkOrderDto no q.best_down s.order_size).price
            (mkOrderDto no q.best_down s.order_size).size with
        | none =>
          simp only [hadj] at h
          simp at h
        | some ns =>
          simp only [hadj, Except.ok.injEq, Prod.mk.injEq, Option.some.injEq] at h
          refine Or.inr ?_
          rw [← h.2]
          rfl
      · simp only [if_neg hd2] at h
        simp at h
  refine ⟨rfl, key, ?_⟩
  rcases key with hk | hk
  · exact ⟨pyRound (q.best_up * 100), by rw [hk, hundred_mul_pyRound2]⟩
  · exact ⟨pyRound (q.best_down * 100), by rw [hk, hundred_mul_pyRound2]⟩

/-- C10 witness: the UP order built from best ask 0.46 carries price
`round(0.46, 2) = 0.46`, a whole cent. -/
theorem C10_witness :
    (mkOrderDto "T" (3/1000) 50).price = pyRound2 (3/1000) ∧
    ((⟨"UP", 46/100, 50⟩ : OrderDto).price = pyRound2 (46/100 : ℚ) ∨
     (⟨"UP", 46/100, 50⟩ : OrderDto).price = pyRound2 (1/10 : ℚ)) ∧
    ∃ n : ℤ, 100 * (⟨"UP", 46/100, 50⟩ : OrderDto).price = (n : ℚ) :=
  C10_order_price_whole_cent "T" (3/1000) 50 200 (-10) 0 defaultSettings "UP" "DOWN"
    ⟨46/100, 1/10, 100, 100, 46/100, 1/10⟩ true ⟨"UP", 46/100, 50⟩
    (by norm_num [run_once, get_time_remaining, get_strategy_remaining_to_start,
       defaultSettings, mkOrderDto, adjustOrderSize, pyRound2, pyRound]
       ; simp)

end PolyAbri
